import Mathlib

/-
Verification development for the credential and session token lifecycle
subsystem of a Firestore client library (src/jwt.rs, src/sessions.rs).

The Rust code is shallowly embedded: chrono timestamps become integers
counting seconds since the epoch, chrono Duration::num_minutes becomes
truncated (toward zero) integer division by 60, Rust Result becomes Except
or the Outcome type below, and a Rust panic (an .unwrap() on Err/None, or a
dynamic RefCell borrow violation) becomes Outcome.panic.  All interaction
with external collaborators (the biscuit JWT library for base64/JSON
decoding, signature checks and signing, and the reqwest HTTP client for the
token endpoints) is routed through an explicit environment record Env, so
every session operation is a pure state-passing function of the session
state and that environment.  Network requests issued by an operation are
additionally reported as an explicit trace of NetCall events.
-/

set_option autoImplicit false

namespace FirestoreAuth

/-- Seconds since the Unix epoch; the embedding of chrono DateTime of Utc. -/
abbrev Timestamp := Int

/-- Embedding of the error enum of the crate (errors.rs is outside the
analysed sources; only the constructors actually produced by jwt.rs and
sessions.rs are needed, and their payloads are reduced to strings because no
analysed code inspects them). -/
inductive FirebaseError where
  | Generic : String → FirebaseError
  | JWTErr : String → FirebaseError
  | RequestErr : String → FirebaseError
  | APIError : Nat → String → String → FirebaseError
deriving Repr, DecidableEq

/-- Result of running a Rust function that can return a value, return an
error, or panic at runtime. -/
inductive Outcome (α : Type) where
  | ok : α → Outcome α
  | err : FirebaseError → Outcome α
  | panic : Outcome α
deriving Repr, DecidableEq

/-- Private claim set of jwt.rs (struct JwtOAuthPrivateClaims). -/
structure JwtOAuthPrivateClaims where
  scope : Option String
  client_id : Option String
  uid : Option String
deriving Repr, DecidableEq

/-- Embedding of biscuit SingleOrMultiple for the audience claim. -/
inductive SingleOrMultiple where
  | single : String → SingleOrMultiple
  | multiple : List String → SingleOrMultiple
deriving Repr, DecidableEq

/-- Embedding of biscuit RegisteredClaims, restricted to the claims the
analysed code reads or writes. -/
structure RegisteredClaims where
  issuer : Option String
  subject : Option String
  audience : Option SingleOrMultiple
  expiry : Option Timestamp
  issued_at : Option Timestamp
  not_before : Option Timestamp
  id : Option String
deriving Repr, DecidableEq

/-- Embedding of biscuit ClaimsSet with the private claims of jwt.rs;
the Rust field named private is called priv_claims here because private is a
Lean keyword. -/
structure ClaimsSet where
  registered : RegisteredClaims
  priv_claims : JwtOAuthPrivateClaims
deriving Repr, DecidableEq

/-- Embedding of the jws header, restricted to the key id, the only header
field the analysed code reads (the algorithm is always RS256). -/
structure Header where
  key_id : Option String
deriving Repr, DecidableEq

/-- A decoded JWT (biscuit JWT in its Decoded form): header plus claim set.
The analysed code only ever holds decoded JWTs in this type; encoded tokens
are plain strings. -/
structure AuthClaimsJWT where
  header : Header
  payload : ClaimsSet
deriving Repr, DecidableEq

/-- Key material of a credentials object: the optional private signing key
and the verification keys indexed by key id. -/
structure Keys where
  secret : Option String
  pub_keys : List (String × String)
deriving Repr, DecidableEq

/-- Embedding of the credentials object (credentials.rs is outside the
analysed sources; these are exactly the fields jwt.rs and sessions.rs read,
as named by the spec data model). -/
structure Credentials where
  project_id : String
  api_key : String
  client_email : String
  private_key_id : String
  keys : Keys
deriving Repr, DecidableEq

/-- Modelled from the spec: Credentials::decode_secret lives in the
credentials module, which is not part of the analysed sources.  Spec section
2 and 4.3: the credential holds a set of verification keys indexed by key
id, and verification looks up the matching verification key in the
credential key set, failing when none matches (the caller in jwt.rs maps the
None to an error). -/
def Credentials.decode_secret (c : Credentials) (kid : String) : Option String :=
  (c.keys.pub_keys.find? (fun p => p.fst == kid)).map (fun p => p.snd)

/-- Response body of the refresh-token exchange endpoint
(struct RefreshTokenToAccessTokenResponse, sessions.rs). -/
structure RefreshTokenToAccessTokenResponse where
  expires_in : String
  token_type : String
  refresh_token : String
  id_token : String
  user_id : String
  project_id : String
deriving Repr, DecidableEq

/-- Response body of the custom-token exchange endpoint
(struct CustomJwtToFirebaseIDResponse, sessions.rs). -/
structure CustomJwtToFirebaseIDResponse where
  kind : Option String
  idToken : String
  refreshToken : Option String
  expiresIn : Option String
deriving Repr, DecidableEq

/-- A network request issued by a session operation, recorded as a trace
event: the refresh exchange carries the api key and the string passed as
refresh token; the custom-token exchange carries the api key, the encoded
custom jwt and the returnSecureToken flag. -/
inductive NetCall where
  | refreshExchange : String → String → NetCall
  | customTokenExchange : String → String → Bool → NetCall
deriving Repr, DecidableEq

/-- Environment bundling the current time and every external collaborator
the analysed code calls: the biscuit decoding, verification and signing
primitives, the residual temporal validation of biscuit (everything in
RegisteredClaims::validate beyond claim presence), and the two token REST
endpoints.  Functions returning Option use none for the failure the Rust
caller observes as an Err. -/
structure Env where
  now : Timestamp
  unverifiedPayload : String → Option ClaimsSet
  unverifiedHeader : String → Option Header
  intoDecoded : String → String → Option ClaimsSet
  temporalOk : RegisteredClaims → Bool
  encodeJwt : AuthClaimsJWT → String → Option String
  getNewAccessToken : String → String → Except FirebaseError RefreshTokenToAccessTokenResponse
  customTokenExchange : String → String → Bool → Except FirebaseError CustomJwtToFirebaseIDResponse

/-- Audience constant JWT_AUDIENCE_FIRESTORE of jwt.rs. -/
def JWT_AUDIENCE_FIRESTORE : String :=
  "https://firestore.googleapis.com/google.firestore.v1.Firestore"

/-- Audience constant JWT_AUDIENCE_IDENTITY of jwt.rs. -/
def JWT_AUDIENCE_IDENTITY : String :=
  "https://identitytoolkit.googleapis.com/google.identity.identitytoolkit.v1.IdentityToolkit"

/-- Translated from is_expired (jwt.rs lines 105-114): decode the payload
without signature verification, then compare now minus expiry, taken in
whole minutes (chrono num_minutes truncates toward zero, hence Int.tdiv),
against the tolerance; a missing expiry claim yields true. -/
def is_expired (env : Env) (access_token : String) (tolerance_in_minutes : Int) :
    Except FirebaseError Bool :=
  match env.unverifiedPayload access_token with
  | none => .error (.JWTErr "unverified_payload")
  | some claims =>
    match claims.registered.expiry with
    | some expiry => .ok (decide ((env.now - expiry).tdiv 60 - tolerance_in_minutes > 0))
    | none => .ok true

/-- Translated from jwt_update_expiry_if (jwt.rs lines 117-133): if the
issued_at claim is present and now minus issued_at exceeds expire_in_minutes
whole minutes, set issued_at to now and report true; if it is present and
not older, report false; if it is absent, set it to now and report true.
The Rust function mutates the jwt in place and returns the flag; the
embedding returns the updated jwt together with the flag. -/
def jwt_update_expiry_if (env : Env) (jwt : AuthClaimsJWT) (expire_in_minutes : Int) :
    AuthClaimsJWT × Bool :=
  match jwt.payload.registered.issued_at with
  | some issued_at =>
    if (env.now - issued_at).tdiv 60 > expire_in_minutes then
      ({ jwt with payload.registered.issued_at := some env.now }, true)
    else
      (jwt, false)
  | none => ({ jwt with payload.registered.issued_at := some env.now }, true)

/-- Translated from create_jwt (jwt.rs lines 135-179): header carries RS256
and the credential key id; issuer and subject are the credential client
email, audience is the given single audience, expiry is now plus the
duration, issued_at is now; the private scope claim folds the supplied
scopes with fun acc x => acc ++ x ++ " " starting from the empty string and
is absent when no scope sequence is supplied.  The Rust function returns
Result but its only exit is Ok, so the embedding returns the jwt directly. -/
def create_jwt (env : Env) (credentials : Credentials) (scope : Option (List String))
    (duration : Int) (client_id : Option String) (user_id : Option String)
    (audience : String) : AuthClaimsJWT :=
  { header := { key_id := some credentials.private_key_id }
    payload := {
      registered := {
        issuer := some credentials.client_email
        audience := some (.single audience)
        subject := some credentials.client_email
        expiry := some (env.now + duration)
        issued_at := some env.now
        not_before := none
        id := none }
      priv_claims := {
        scope := scope.map (fun f => f.foldl (fun acc x => acc ++ x ++ " ") "")
        client_id := client_id
        uid := user_id } } }

/-- Result struct TokenValidationResult of jwt.rs. -/
structure TokenValidationResult where
  claims : JwtOAuthPrivateClaims
  audience : String
  subject : String
deriving Repr, DecidableEq

/-- Claim-presence validation performed by the external biscuit library for
the ValidationOptions built in verify_access_token (jwt.rs lines 216-228):
issued_at, expiry, issuer, audience and subject are Required, not_before and
id are Optional.  The residual validation of the library (the temporal
checks of the default options) is abstracted as env.temporalOk, which does
not depend on claim presence choices. -/
def validateRegistered (env : Env) (r : RegisteredClaims) : Bool :=
  r.issued_at.isSome && r.expiry.isSome && r.issuer.isSome &&
    r.audience.isSome && r.subject.isSome && env.temporalOk r

/-- Translated from verify_access_token (jwt.rs lines 196-243): read the
unverified header, require a key id, look the key up via decode_secret,
verify and decode the token with that key, validate the claim set, then
build the result.  The audience and subject are extracted with .unwrap()
in the source, and a Multiple audience is read with v.get(0).unwrap(), so
those arms become Outcome.panic when the option or the list is empty. -/
def verify_access_token (env : Env) (credentials : Credentials) (access_token : String) :
    Outcome TokenValidationResult :=
  match env.unverifiedHeader access_token with
  | none => .err (.JWTErr "unverified_header")
  | some header =>
    match header.key_id with
    | none => .err (.Generic "No jwt kid")
    | some kid =>
      match credentials.decode_secret kid with
      | none => .err (.Generic "No secret for kid")
      | some secret =>
        match env.intoDecoded access_token secret with
        | none => .err (.JWTErr "into_decoded")
        | some claims =>
          if validateRegistered env claims.registered then
            match claims.registered.audience with
            | none => .panic
            | some (.single v) =>
              match claims.registered.subject with
              | none => .panic
              | some s => .ok { claims := claims.priv_claims, audience := v, subject := s }
            | some (.multiple v) =>
              match v.head? with
              | none => .panic
              | some a =>
                match claims.registered.subject with
                | none => .panic
                | some s => .ok { claims := claims.priv_claims, audience := a, subject := s }
          else .err (.JWTErr "validate")

namespace user

/-- State of an impersonated session.  user::BlockingSession and
user::AsyncSession (sessions.rs lines 70-99) carry the same data apart from
the HTTP client handles (not modelled) and the container of the cached
token (RefCell of String versus a plain String), so both variants share this
state type. -/
structure UserSession where
  user_id : String
  refresh_token : Option String
  api_key : String
  access_token_ : String
  project_id_ : String
deriving Repr, DecidableEq

/-- Translated from the FirebaseAuthBearer impl for user::BlockingSession,
fn access_token (sessions.rs lines 109-124).  The source first takes
jwt = self.access_token_.borrow() and keeps that Ref guard alive until the
end of the body (Ref implements Drop, so it is released only at scope end).
The .unwrap() on is_expired panics when the cached string does not decode.
On a successful refresh the source calls RefCell::swap on access_token_
while the Ref guard is still live, which is a dynamic borrow violation and
panics, so that arm is Outcome.panic; on a failed refresh it returns the
empty string.  The second component lists the network requests issued. -/
def blocking_access_token (env : Env) (s : UserSession) :
    Outcome (String × UserSession) × List NetCall :=
  match is_expired env s.access_token_ 0 with
  | .error _ => (.panic, [])
  | .ok true =>
    match env.getNewAccessToken s.api_key s.access_token_ with
    | .ok _ => (.panic, [.refreshExchange s.api_key s.access_token_])
    | .error _ => (.ok ("", s), [.refreshExchange s.api_key s.access_token_])
  | .ok false => (.ok (s.access_token_, s), [])

/-- Translated from the FirebaseAuthBearerAsync impl for user::AsyncSession,
fn access_token (sessions.rs lines 148-163).  Identical to the blocking
variant except that the cached token is a plain field of an exclusively held
mutable reference, so the successful refresh stores response.id_token and
returns it.  Note that the source passes the cached access token string,
not self.refresh_token, as the refresh_token argument of the exchange. -/
def async_access_token (env : Env) (s : UserSession) :
    Outcome (String × UserSession) × List NetCall :=
  match is_expired env s.access_token_ 0 with
  | .error _ => (.panic, [])
  | .ok true =>
    match env.getNewAccessToken s.api_key s.access_token_ with
    | .ok response =>
      (.ok (response.id_token, { s with access_token_ := response.id_token }),
        [.refreshExchange s.api_key s.access_token_])
    | .error _ => (.ok ("", s), [.refreshExchange s.api_key s.access_token_])
  | .ok false => (.ok (s.access_token_, s), [])

/-- Translated from user::BlockingSession::by_access_token (sessions.rs
lines 371-385) and user::AsyncSession::by_access_token (lines 563-573),
whose bodies are identical: verify the token, then build a session whose
user id is the verified subject, whose project id is the verified audience,
whose cached token is the given token unchanged and whose refresh token is
None.  A panic of verify_access_token propagates. -/
def by_access_token (env : Env) (credentials : Credentials) (access_token : String) :
    Outcome UserSession :=
  match verify_access_token env credentials access_token with
  | .err e => .err e
  | .panic => .panic
  | .ok result =>
    .ok { user_id := result.subject, project_id_ := result.audience,
          access_token_ := access_token, refresh_token := none,
          api_key := credentials.api_key }

/-- Translated from user::BlockingSession::by_refresh_token (sessions.rs
lines 296-310) and user::AsyncSession::by_refresh_token (lines 487-501),
which differ only in awaiting the exchange: call the refresh exchange with
the credential api key and the given refresh token, and on success adopt the
returned id token, refresh token and user id. -/
def by_refresh_token (env : Env) (credentials : Credentials) (refresh_token : String) :
    Outcome UserSession :=
  match env.getNewAccessToken credentials.api_key refresh_token with
  | .error e => .err e
  | .ok r =>
    .ok { user_id := r.user_id, access_token_ := r.id_token,
          refresh_token := some r.refresh_token,
          project_id_ := credentials.project_id, api_key := credentials.api_key }

/-- Translated from user::BlockingSession::by_user_id (sessions.rs lines
321-358) and user::AsyncSession::by_user_id (lines 513-550), which differ
only in awaiting the calls: build a one-hour custom jwt for the user against
the identity audience, sign and encode it with the credential secret (absent
secret is an error), exchange it at the custom-token endpoint, and adopt the
returned id token and optional refresh token. -/
def by_user_id (env : Env) (credentials : Credentials) (user_id : String)
    (with_refresh_token : Bool) : Outcome UserSession :=
  let jwt := create_jwt env credentials none 3600 none (some user_id) JWT_AUDIENCE_IDENTITY
  match credentials.keys.secret with
  | none => .err (.Generic "No private key added via add_keypair_key!")
  | some secret =>
    match env.encodeJwt jwt secret with
    | none => .err (.JWTErr "encode")
    | some encoded =>
      match env.customTokenExchange credentials.api_key encoded with_refresh_token with
      | .error e => .err e
      | .ok r =>
        .ok { user_id := user_id, access_token_ := r.idToken,
              refresh_token := r.refreshToken,
              project_id_ := credentials.project_id, api_key := credentials.api_key }

/-- Translated from user::BlockingSession::new (sessions.rs lines 253-287):
if a firebase tokenid is supplied, try by_access_token and on success return
that session with the supplied refresh token stored (a panic from the
verification propagates); otherwise, if a refresh token is supplied, try
by_refresh_token and return it on success; otherwise, if a user id is
supplied, try by_user_id with with_refresh_token = true and return it on
success; otherwise fail with the Generic "No parameter given" error. -/
def blocking_new (env : Env) (credentials : Credentials)
    (user_id firebase_tokenid refresh_token : Option String) : Outcome UserSession :=
  let step3 : Outcome UserSession :=
    match user_id with
    | some uid =>
      match by_user_id env credentials uid true with
      | .ok r => .ok r
      | _ => .err (.Generic "No parameter given")
    | none => .err (.Generic "No parameter given")
  let step2 : Outcome UserSession :=
    match refresh_token with
    | some rt =>
      match by_refresh_token env credentials rt with
      | .ok r => .ok r
      | _ => step3
    | none => step3
  match firebase_tokenid with
  | some tid =>
    match by_access_token env credentials tid with
    | .ok r => .ok { r with refresh_token := refresh_token }
    | .panic => .panic
    | .err _ => step2
  | none => step2

/-- Translated from user::AsyncSession::new (sessions.rs lines 444-478),
whose body is that of the blocking constructor with the refresh and
custom-token exchanges awaited instead of blocked on. -/
def async_new (env : Env) (credentials : Credentials)
    (user_id firebase_tokenid refresh_token : Option String) : Outcome UserSession :=
  let step3 : Outcome UserSession :=
    match user_id with
    | some uid =>
      match by_user_id env credentials uid true with
      | .ok r => .ok r
      | _ => .err (.Generic "No parameter given")
    | none => .err (.Generic "No parameter given")
  let step2 : Outcome UserSession :=
    match refresh_token with
    | some rt =>
      match by_refresh_token env credentials rt with
      | .ok r => .ok r
      | _ => step3
    | none => step3
  match firebase_tokenid with
  | some tid =>
    match by_access_token env credentials tid with
    | .ok r => .ok { r with refresh_token := refresh_token }
    | .panic => .panic
    | .err _ => step2
  | none => step2

/-- Follows the wording of the spec, section 4.4 construction protocol:
step 1, if an existing access token is supplied and verification succeeds on
it, adopt it as-is, retaining any supplied refresh token alongside; step 2,
else if a refresh token is supplied and the refresh exchange succeeds, adopt
the returned pair; step 3, else if a user id is supplied, exchange a locally
signed custom token (the constructors request a refresh token); step 4, else
fail with no usable credential source supplied.  The per-source acquisition
operations are the ones translated from the source above; only the fallback
ordering is written from the spec. -/
def new_spec (env : Env) (credentials : Credentials)
    (user_id firebase_tokenid refresh_token : Option String) : Outcome UserSession :=
  let step3 : Outcome UserSession :=
    match user_id with
    | some uid =>
      match by_user_id env credentials uid true with
      | .ok r => .ok r
      | _ => .err (.Generic "No parameter given")
    | none => .err (.Generic "No parameter given")
  let step2 : Outcome UserSession :=
    match refresh_token with
    | some rt =>
      match by_refresh_token env credentials rt with
      | .ok r => .ok r
      | _ => step3
    | none => step3
  match firebase_tokenid with
  | some tid =>
    match by_access_token env credentials tid with
    | .ok r => .ok { r with refresh_token := refresh_token }
    | _ => step2
  | none => step2

end user

namespace service_account

/-- State of a service-account session.  service_account::BlockingSession
and service_account::AsyncSession (sessions.rs lines 785-804) carry the same
data apart from the HTTP client handles and the containers (RefCell versus
Pin of Box versus plain field), so both variants share this state type. -/
structure SaSession where
  credentials : Credentials
  jwt : AuthClaimsJWT
  access_token_ : String
deriving Repr, DecidableEq

/-- Translated from the FirebaseAuthBearer impl for
service_account::BlockingSession, fn access_token (sessions.rs lines
812-826).  The source takes the RefMut guard jwt = self.jwt.borrow_mut() and
keeps it alive until scope end; when jwt_update_expiry_if reports an update
and a secret is present, it then calls self.jwt.borrow() on the same
RefCell, a dynamic borrow violation that panics, so that arm is
Outcome.panic.  When no resign is needed, or the secret is absent, the
cached token is returned unchanged (the jwt claim set keeps any issued_at
update).  No network request is ever issued. -/
def blocking_access_token (env : Env) (s : SaSession) :
    Outcome (String × SaSession) × List NetCall :=
  let p := jwt_update_expiry_if env s.jwt 50
  let s1 : SaSession := { s with jwt := p.fst }
  if p.snd then
    match s1.credentials.keys.secret with
    | some _ => (.panic, [])
    | none => (.ok (s1.access_token_, s1), [])
  else (.ok (s1.access_token_, s1), [])

/-- Translated from the FirebaseAuthBearerAsync impl for
service_account::AsyncSession, fn access_token (sessions.rs lines 848-862):
when jwt_update_expiry_if reports an update, and a secret is present, and
encoding succeeds, the cached token is replaced by the fresh encoding;
whenever the secret is absent or encoding fails the previous cached token is
returned unchanged.  No network request is ever issued. -/
def async_access_token (env : Env) (s : SaSession) :
    Outcome (String × SaSession) × List NetCall :=
  let p := jwt_update_expiry_if env s.jwt 50
  let s1 : SaSession := { s with jwt := p.fst }
  if p.snd then
    match s1.credentials.keys.secret with
    | some secret =>
      match env.encodeJwt s1.jwt secret with
      | some encoded =>
        let s2 : SaSession := { s1 with access_token_ := encoded }
        (.ok (s2.access_token_, s2), [])
      | none => (.ok (s1.access_token_, s1), [])
    | none => (.ok (s1.access_token_, s1), [])
  else (.ok (s1.access_token_, s1), [])

end service_account

/-! Concrete fixtures used by the witnesses and counterexamples below. -/

/-- Registered claim set with every claim absent. -/
def emptyRegistered : RegisteredClaims :=
  { issuer := none, subject := none, audience := none, expiry := none,
    issued_at := none, not_before := none, id := none }

/-- Private claim set with every claim absent. -/
def emptyPriv : JwtOAuthPrivateClaims :=
  { scope := none, client_id := none, uid := none }

/-- Payload whose expiry lies one hour in the past of the zero clock. -/
def expiredPayload : ClaimsSet :=
  { registered := { emptyRegistered with expiry := some (-3600) },
    priv_claims := emptyPriv }

/-- Environment in which the clock reads zero, temporal validation accepts,
and every other collaborator fails; the concrete environments below override
individual fields. -/
def baseEnv : Env :=
  { now := 0
    unverifiedPayload := fun _ => none
    unverifiedHeader := fun _ => none
    intoDecoded := fun _ _ => none
    temporalOk := fun _ => true
    encodeJwt := fun _ _ => none
    getNewAccessToken := fun _ _ => .error (.RequestErr "unreachable endpoint")
    customTokenExchange := fun _ _ _ => .error (.RequestErr "unreachable endpoint") }

/-- Minimal credentials with no signing key and no verification keys. -/
def baseCred : Credentials :=
  { project_id := "proj", api_key := "key", client_email := "acct@example",
    private_key_id := "kid0", keys := { secret := none, pub_keys := [] } }

/-- Refresh-exchange response used by the C2 fixture. -/
def c2Resp : RefreshTokenToAccessTokenResponse :=
  { expires_in := "3600", token_type := "Bearer", refresh_token := "rtB",
    id_token := "fresh", user_id := "u", project_id := "p" }

/-- Environment for C2: the cached token decodes as expired and the refresh
exchange succeeds. -/
def c2Env : Env :=
  { baseEnv with
    unverifiedPayload := fun _ => some expiredPayload
    getNewAccessToken := fun _ _ => .ok c2Resp }

/-- Environment for C2 with the refresh exchange failing. -/
def c2EnvFail : Env :=
  { c2Env with getNewAccessToken := fun _ _ => .error (.APIError 400 "INVALID_REFRESH_TOKEN" "u") }

/-- Impersonated session for C2 whose cached token is the expired one. -/
def sC2 : user.UserSession :=
  { user_id := "u", refresh_token := some "rtA", api_key := "k",
    access_token_ := "expired", project_id_ := "p" }

/-- Refresh-exchange response used by the C3 fixture; its refresh token
differs from the one stored in the session. -/
def c3Resp : RefreshTokenToAccessTokenResponse :=
  { expires_in := "3600", token_type := "Bearer", refresh_token := "rt2",
    id_token := "tok2", user_id := "u", project_id := "p" }

/-- Environment for C3: expired cached token, successful refresh exchange. -/
def c3Env : Env :=
  { baseEnv with
    unverifiedPayload := fun _ => some expiredPayload
    getNewAccessToken := fun _ _ => .ok c3Resp }

/-- Impersonated session for C3 storing the refresh token rt1. -/
def sC3 : user.UserSession :=
  { user_id := "u", refresh_token := some "rt1", api_key := "k",
    access_token_ := "old", project_id_ := "p" }

/-- Service-account credentials with a signing key, for C4 and C8. -/
def saCred : Credentials :=
  { project_id := "p", api_key := "k", client_email := "me@example",
    private_key_id := "kid", keys := { secret := some "sec", pub_keys := [] } }

/-- Claim set of a service-account jwt issued at time zero. -/
def saJwt : AuthClaimsJWT :=
  { header := { key_id := some "kid" }
    payload := {
      registered := { emptyRegistered with
        issuer := some "me@example", subject := some "me@example",
        audience := some (.single JWT_AUDIENCE_FIRESTORE),
        expiry := some 3600, issued_at := some 0 }
      priv_claims := emptyPriv } }

/-- saJwt with its issued_at claim moved to second 3060 (minute 51). -/
def saJwt51 : AuthClaimsJWT :=
  { saJwt with payload.registered.issued_at := some (3060 : Int) }

/-- Service-account session created at time zero, for C4 and C8. -/
def saSess : service_account.SaSession :=
  { credentials := saCred, jwt := saJwt, access_token_ := "enc0" }

/-- saSess with the signing key removed from its credentials. -/
def saSessNoKey : service_account.SaSession :=
  { saSess with credentials := { saCred with keys := { secret := none, pub_keys := [] } } }

/-- Environment for C4 at 51 minutes after creation; signing yields the
fresh encoding signed51. -/
def c4Env51 : Env :=
  { baseEnv with now := 3060, encodeJwt := fun _ _ => some "signed51" }

/-- Environment for C4 at 49 minutes after creation. -/
def c4Env49 : Env :=
  { baseEnv with now := 2940 }

/-- Claim set accepted by the C5 witness. -/
def c5Claims : ClaimsSet :=
  { registered := { issuer := some "iss", subject := some "sub-1",
                    audience := some (.single "aud-1"), expiry := some 100,
                    issued_at := some 0, not_before := none, id := none },
    priv_claims := emptyPriv }

/-- Environment for the C5 witness: the token header names key k1 and
signature verification against pub1 succeeds with c5Claims. -/
def c5Env : Env :=
  { baseEnv with
    unverifiedHeader := fun _ => some { key_id := some "k1" }
    intoDecoded := fun t k => if t == "tok" && k == "pub1" then some c5Claims else none }

/-- Credentials for the C5 witness hosting the verification key k1. -/
def c5Cred : Credentials :=
  { project_id := "p", api_key := "k", client_email := "e",
    private_key_id := "k1", keys := { secret := none, pub_keys := [("k1", "pub1")] } }

/-- Payload for the C6 witness: no expiry claim. -/
def c6Claims : ClaimsSet :=
  { registered := emptyRegistered, priv_claims := emptyPriv }

/-- Environment for the C6 witness: every token decodes to c6Claims. -/
def c6Env : Env :=
  { baseEnv with unverifiedPayload := fun _ => some c6Claims }

/-- Refresh-exchange response used by the C8 fixture. -/
def c8Resp : RefreshTokenToAccessTokenResponse :=
  { expires_in := "3600", token_type := "Bearer", refresh_token := "r2",
    id_token := "n8", user_id := "u", project_id := "p" }

/-- Environment for C8: expired cached token, successful refresh exchange. -/
def c8Env : Env :=
  { baseEnv with
    unverifiedPayload := fun _ => some expiredPayload
    getNewAccessToken := fun _ _ => .ok c8Resp }

/-- Impersonated session for C8. -/
def sC8 : user.UserSession :=
  { user_id := "u", refresh_token := some "r1", api_key := "k",
    access_token_ := "tk", project_id_ := "p" }

/-- Environment for the service-account half of C8, 51 minutes after
creation, with signing yielding s51. -/
def c8SaEnv : Env :=
  { baseEnv with now := 3060, encodeJwt := fun _ _ => some "s51" }

/-- Impersonated session for the C9 witness; its cached string does not
decode under baseEnv. -/
def c9Session : user.UserSession :=
  { user_id := "u", refresh_token := none, api_key := "k",
    access_token_ := "junk", project_id_ := "p" }

/-- Claim set with a present but empty Multiple audience, for the C10
witness. -/
def c10Claims : ClaimsSet :=
  { registered := { issuer := some "iss", subject := some "sub-1",
                    audience := some (.multiple []), expiry := some 100,
                    issued_at := some 0, not_before := none, id := none },
    priv_claims := emptyPriv }

/-- Environment for the C10 witness. -/
def c10Env : Env :=
  { baseEnv with
    unverifiedHeader := fun _ => some { key_id := some "k1" }
    intoDecoded := fun _ _ => some c10Claims }

/-- Credentials for the C10 witness hosting the verification key k1. -/
def c10Cred : Credentials :=
  { project_id := "p", api_key := "k", client_email := "e",
    private_key_id := "k1", keys := { secret := none, pub_keys := [("k1", "pubX")] } }

/-! Theorems. -/

/-- C6: for every token string whose payload decodes as a JWT, is_expired
returns Ok, never an error; the returned flag is true exactly when the
expiry claim is absent or now minus expiry, measured in whole minutes, minus
the tolerance is strictly greater than zero; and the result does not depend
on the signature-verification collaborators of the environment, only on the
clock and the unverified payload decoding. -/
theorem C6_is_expired_iff (env : Env) (tok : String) (tol : Int) (c : ClaimsSet)
    (h : env.unverifiedPayload tok = some c) :
    ((is_expired env tok tol = .ok true) ↔
      (c.registered.expiry = none ∨
        ∃ e, c.registered.expiry = some e ∧ (env.now - e).tdiv 60 - tol > 0))
    ∧ (∃ b, is_expired env tok tol = .ok b)
    ∧ (∀ env₂ : Env, env₂.now = env.now →
        env₂.unverifiedPayload = env.unverifiedPayload →
        is_expired env₂ tok tol = is_expired env tok tol) := by
  refine ⟨?_, ?_, ?_⟩
  · cases hexp : c.registered.expiry with
    | none => simp [is_expired, h, hexp]
    | some e => simp [is_expired, h, hexp]
  · cases hexp : c.registered.expiry with
    | none => exact ⟨true, by simp [is_expired, h, hexp]⟩
    | some e =>
      exact ⟨decide ((env.now - e).tdiv 60 - tol > 0), by simp [is_expired, h, hexp]⟩
  · intro env₂ h1 h2
    unfold is_expired
    rw [h1, h2]

/-- C6 witness: in the concrete environment c6Env the token payload decodes
with no expiry claim, and is_expired reports true. -/
theorem C6_witness : is_expired c6Env "tok" 0 = .ok true :=
  ((C6_is_expired_iff c6Env "tok" 0 c6Claims rfl).1).mpr (Or.inl rfl)

/-- C5: verify_access_token returns an error whenever the header key id is
absent, or names a key missing from the credential key set, or any of the
claims issued_at, expiry, issuer, audience, subject is absent from a
decoded token; and when the key is found, the signature verifies, all
required claims are present and the residual temporal validation accepts, a
token with absent not_before and id claims is accepted, so their absence
never causes a failure. -/
theorem C5_verify_access_token_presence (env : Env) (credentials : Credentials)
    (tok : String) :
    (∀ h, env.unverifiedHeader tok = some h → h.key_id = none →
      ∃ e, verify_access_token env credentials tok = .err e)
    ∧ (∀ h kid, env.unverifiedHeader tok = some h → h.key_id = some kid →
        credentials.decode_secret kid = none →
        ∃ e, verify_access_token env credentials tok = .err e)
    ∧ (∀ h kid secret c, env.unverifiedHeader tok = some h → h.key_id = some kid →
        credentials.decode_secret kid = some secret →
        env.intoDecoded tok secret = some c →
        (c.registered.issued_at = none ∨ c.registered.expiry = none ∨
          c.registered.issuer = none ∨ c.registered.audience = none ∨
          c.registered.subject = none) →
        ∃ e, verify_access_token env credentials tok = .err e)
    ∧ (∀ h kid secret c a s, env.unverifiedHeader tok = some h → h.key_id = some kid →
        credentials.decode_secret kid = some secret →
        env.intoDecoded tok secret = some c →
        c.registered.issued_at.isSome = true → c.registered.expiry.isSome = true →
        c.registered.issuer.isSome = true →
        c.registered.audience = some (.single a) → c.registered.subject = some s →
        env.temporalOk c.registered = true →
        c.registered.not_before = none → c.registered.id = none →
        verify_access_token env credentials tok =
          .ok { claims := c.priv_claims, audience := a, subject := s }) := by
  refine ⟨?_, ?_, ?_, ?_⟩
  · intro h h1 h2
    exact ⟨.Generic "No jwt kid", by simp [verify_access_token, h1, h2]⟩
  · intro h kid h1 h2 h3
    exact ⟨.Generic "No secret for kid", by simp [verify_access_token, h1, h2, h3]⟩
  · intro h kid secret c h1 h2 h3 h4 hmiss
    have hval : validateRegistered env c.registered = false := by
      rcases hmiss with h5 | h5 | h5 | h5 | h5 <;> simp [validateRegistered, h5]
    exact ⟨.JWTErr "validate", by simp [verify_access_token, h1, h2, h3, h4, hval]⟩
  · intro h kid secret c a s h1 h2 h3 h4 hiat hexp hiss haud hsub htmp hnbf hid
    have hval : validateRegistered env c.registered = true := by
      simp [validateRegistered, hiat, hexp, hiss, haud, hsub, htmp]
    simp [verify_access_token, h1, h2, h3, h4, hval, haud, hsub]

/-- C5 witness: in the concrete environment c5Env with credentials c5Cred
the token verifies and yields the audience and subject of c5Claims, with
not_before and id absent. -/
theorem C5_witness :
    verify_access_token c5Env c5Cred "tok"
      = .ok { claims := emptyPriv, audience := "aud-1", subject := "sub-1" } :=
  (C5_verify_access_token_presence c5Env c5Cred "tok").2.2.2
    { key_id := some "k1" } "k1" "pub1" c5Claims "aud-1" "sub-1"
    rfl rfl (by decide) rfl rfl rfl rfl rfl rfl rfl rfl rfl

/-- C10: a token that reaches the success path of verify_access_token (key
found, signature verified, claim validation passed) but whose audience claim
is a Multiple list with zero entries makes verify_access_token panic, because
the source reads the first entry with v.get(0).unwrap(). -/
theorem C10_verify_panics_on_empty_audience_list (env : Env) (credentials : Credentials)
    (tok : String) (h : Header) (kid secret : String) (c : ClaimsSet)
    (h1 : env.unverifiedHeader tok = some h) (h2 : h.key_id = some kid)
    (h3 : credentials.decode_secret kid = some secret)
    (h4 : env.intoDecoded tok secret = some c)
    (h5 : validateRegistered env c.registered = true)
    (h6 : c.registered.audience = some (.multiple [])) :
    verify_access_token env credentials tok = .panic := by
  simp [verify_access_token, h1, h2, h3, h4, h5, h6]

/-- C10 witness: concrete token whose audience is Multiple with zero
entries; verification panics. -/
theorem C10_witness : verify_access_token c10Env c10Cred "t" = .panic :=
  C10_verify_panics_on_empty_audience_list c10Env c10Cred "t"
    { key_id := some "k1" } "k1" "pubX" c10Claims rfl rfl (by decide) rfl (by decide) rfl

/-- Helper: String.join splits off its head summand. -/
theorem string_join_cons (s : String) (l : List String) :
    String.join (s :: l) = s ++ String.join l := by
  apply String.ext
  simp [String.data_join]

/-- Helper for C7: the scope fold of create_jwt appends one space after
every scope entry. -/
theorem scope_fold_eq_join (l : List String) (a : String) :
    l.foldl (fun acc x => acc ++ x ++ " ") a
      = a ++ String.join (l.map (fun x => x ++ " ")) := by
  induction l generalizing a with
  | nil => simp [String.join]
  | cons x t ih =>
    show t.foldl (fun acc x => acc ++ x ++ " ") (a ++ x ++ " ")
        = a ++ String.join ((x ++ " ") :: t.map (fun x => x ++ " "))
    rw [ih (a ++ x ++ " "), string_join_cons]
    simp [String.append_assoc]

/-- C7 counterexample: with scopes a and b the private scope claim of
create_jwt is the string a b with a trailing space, not the plain
space-joined string the claim states. -/
theorem C7_counterexample :
    (create_jwt baseEnv baseCred (some ["a", "b"]) 3600 none none "aud").payload.priv_claims.scope
        = some "a b "
    ∧ (create_jwt baseEnv baseCred (some ["a", "b"]) 3600 none none "aud").payload.priv_claims.scope
        ≠ some "a b" := by
  constructor <;> decide

/-- C7 amended: create_jwt sets issuer and subject to the credential client
email, audience to the given single audience, issued_at to now and expiry to
now plus the duration; the private scope claim concatenates each supplied
scope immediately followed by one space (hence a trailing space whenever at
least one scope is supplied, and the empty string for an empty list), and it
is absent, not empty, when no scope sequence is supplied. -/
theorem C7_amended_create_jwt_fields (env : Env) (credentials : Credentials)
    (l : List String) (duration : Int) (client_id user_id : Option String)
    (audience : String) :
    ((create_jwt env credentials (some l) duration client_id user_id audience).payload.registered.issuer
        = some credentials.client_email)
    ∧ ((create_jwt env credentials (some l) duration client_id user_id audience).payload.registered.subject
        = some credentials.client_email)
    ∧ ((create_jwt env credentials (some l) duration client_id user_id audience).payload.registered.audience
        = some (.single audience))
    ∧ ((create_jwt env credentials (some l) duration client_id user_id audience).payload.registered.issued_at
        = some env.now)
    ∧ ((create_jwt env credentials (some l) duration client_id user_id audience).payload.registered.expiry
        = some (env.now + duration))
    ∧ ((create_jwt env credentials (some l) duration client_id user_id audience).payload.priv_claims.scope
        = some (String.join (l.map (fun x => x ++ " "))))
    ∧ ((create_jwt env credentials none duration client_id user_id audience).payload.priv_claims.scope
        = none) := by
  refine ⟨rfl, rfl, rfl, rfl, rfl, ?_, rfl⟩
  simp [create_jwt, scope_fold_eq_join]

/-- C9: whenever the cached access-token string of an impersonated session
does not decode as a JWT payload, access_token unwraps the Err of is_expired
and panics, in both the blocking and the suspending variant. -/
theorem C9_access_token_panics_on_undecodable (env : Env) (s : user.UserSession)
    (h : env.unverifiedPayload s.access_token_ = none) :
    (user.blocking_access_token env s).fst = .panic
    ∧ (user.async_access_token env s).fst = .panic := by
  constructor <;>
    simp [user.blocking_access_token, user.async_access_token, is_expired, h]

/-- C9 witness: under baseEnv no string decodes, and both access_token
variants panic on the concrete session c9Session. -/
theorem C9_witness :
    (user.blocking_access_token baseEnv c9Session).fst = .panic
    ∧ (user.async_access_token baseEnv c9Session).fst = .panic :=
  C9_access_token_panics_on_undecodable baseEnv c9Session rfl

/-- C1: as long as the verification of a supplied access token does not
panic, both impersonated-session constructors equal the specification-side
fallback: adopt a supplied access token that verifies, retaining the
supplied refresh token; else use a supplied refresh token whose exchange
succeeds; else use a supplied user id whose custom-token flow succeeds; else
return an error. -/
theorem C1_construction_strict_order (env : Env) (credentials : Credentials)
    (user_id firebase_tokenid refresh_token : Option String)
    (h : ∀ t, firebase_tokenid = some t →
      user.by_access_token env credentials t ≠ Outcome.panic) :
    user.blocking_new env credentials user_id firebase_tokenid refresh_token
      = user.new_spec env credentials user_id firebase_tokenid refresh_token
    ∧ user.async_new env credentials user_id firebase_tokenid refresh_token
      = user.new_spec env credentials user_id firebase_tokenid refresh_token := by
  constructor <;>
  · cases firebase_tokenid with
    | none => rfl
    | some tid =>
      cases hba : user.by_access_token env credentials tid with
      | ok r => simp [user.blocking_new, user.async_new, user.new_spec, hba]
      | err e => simp [user.blocking_new, user.async_new, user.new_spec, hba]
      | panic => exact absurd hba (h tid rfl)

/-- C1 witness: with every collaborator failing, a constructor call with a
token id, a refresh token and a user id supplied agrees with the
specification-side fallback (verification of the token id fails without
panicking, so the hypothesis holds by evaluation). -/
theorem C1_witness :
    user.blocking_new baseEnv baseCred (some "uid1") (some "tid1") (some "rt1")
      = user.new_spec baseEnv baseCred (some "uid1") (some "tid1") (some "rt1") :=
  (C1_construction_strict_order baseEnv baseCred (some "uid1") (some "tid1") (some "rt1")
    (by intro t ht; cases ht; decide)).1

/-- C2 (code bug): on the concrete expired session sC2, the blocking
access_token issues exactly one refresh-exchange request and then panics on
the success path (the source calls RefCell::swap while the Ref guard taken
at the top of the body is still live), where the claim and the method doc
say the fresh id token is stored and returned; the suspending variant does
store and return it; and on a failing exchange both variants return the
empty string with the error swallowed, again after exactly one request. -/
theorem C2_blocking_panics_on_successful_refresh :
    user.blocking_access_token c2Env sC2 = (.panic, [.refreshExchange "k" "expired"])
    ∧ user.async_access_token c2Env sC2
        = (.ok ("fresh", { sC2 with access_token_ := "fresh" }),
            [.refreshExchange "k" "expired"])
    ∧ user.blocking_access_token c2EnvFail sC2
        = (.ok ("", sC2), [.refreshExchange "k" "expired"])
    ∧ user.async_access_token c2EnvFail sC2
        = (.ok ("", sC2), [.refreshExchange "k" "expired"]) := by
  refine ⟨?_, ?_, ?_, ?_⟩ <;> decide

/-- C3 counterexample: on the concrete session sC3 the refresh exchange
succeeds and returns the refresh token rt2, yet the resulting session still
stores the old refresh token rt1, so a successful refresh does not replace
both cached access token and stored refresh token as the claim states. -/
theorem C3_counterexample :
    c3Env.getNewAccessToken sC3.api_key sC3.access_token_ = .ok c3Resp
    ∧ c3Resp.refresh_token = "rt2"
    ∧ sC3.refresh_token = some "rt1"
    ∧ (user.async_access_token c3Env sC3).fst
        = .ok ("tok2", { sC3 with access_token_ := "tok2" })
    ∧ ({ sC3 with access_token_ := "tok2" } : user.UserSession).refresh_token
        = some "rt1" := by
  refine ⟨rfl, rfl, rfl, by decide, rfl⟩

/-- C3 amended: a refresh triggered by access_token on an expired
impersonated session replaces, on success, only the cached access token with
the id token of the response, leaving the stored refresh token unchanged (in
the suspending variant; the blocking variant panics on that path), and on
failure it leaves the whole session state unchanged in both variants. -/
theorem C3_amended_refresh_state_change (env : Env) (s : user.UserSession)
    (hexp : is_expired env s.access_token_ 0 = .ok true) :
    (∀ r, env.getNewAccessToken s.api_key s.access_token_ = .ok r →
      (user.async_access_token env s).fst
          = .ok (r.id_token, { s with access_token_ := r.id_token })
      ∧ ({ s with access_token_ := r.id_token } : user.UserSession).refresh_token
          = s.refresh_token
      ∧ (user.blocking_access_token env s).fst = .panic)
    ∧ (∀ e, env.getNewAccessToken s.api_key s.access_token_ = .error e →
      (user.async_access_token env s).fst = .ok ("", s)
      ∧ (user.blocking_access_token env s).fst = .ok ("", s)) := by
  constructor
  · intro r hr
    refine ⟨?_, rfl, ?_⟩ <;>
      simp [user.async_access_token, user.blocking_access_token, hexp, hr]
  · intro e he
    constructor <;>
      simp [user.async_access_token, user.blocking_access_token, hexp, he]

/-- C3 amended witness: the concrete successful refresh of the C3 fixture
stores the new access token while the stored refresh token stays rt1. -/
theorem C3_amended_witness :
    (user.async_access_token c3Env sC3).fst
      = .ok ("tok2", { sC3 with access_token_ := "tok2" }) :=
  ((C3_amended_refresh_state_change c3Env sC3 rfl).1 c3Resp rfl).1

/-- C4 (code bug): on the concrete service-account session saSess created at
time zero, access_token at minute 49 returns the cached encoding unchanged;
at minute 51 the suspending variant returns a newly signed token with
issued_at updated to minute 51, as the claim states, but the blocking
variant panics (the source calls self.jwt.borrow() while the RefMut guard
from borrow_mut is still live) instead of returning the new token; with the
signing key absent the blocking variant returns the stale cached token
silently, with issued_at nevertheless updated.  No variant ever issues a
network request. -/
theorem C4_service_account_blocking_panics_on_resign :
    service_account.blocking_access_token c4Env49 saSess = (.ok ("enc0", saSess), [])
    ∧ service_account.blocking_access_token c4Env51 saSess = (.panic, [])
    ∧ service_account.async_access_token c4Env51 saSess
        = (.ok ("signed51", { saSess with jwt := saJwt51, access_token_ := "signed51" }), [])
    ∧ service_account.blocking_access_token c4Env51 saSessNoKey
        = (.ok ("enc0", { saSessNoKey with jwt := saJwt51 }), []) := by
  refine ⟨?_, ?_, ?_, ?_⟩ <;> decide

/-- C8 (code bug): at equal inputs and equal exchange outcomes the blocking
and suspending variants are not behaviorally identical: on the concrete
expired impersonated session sC8 with a succeeding exchange the blocking
variant panics while the suspending one returns the fresh token, and on the
concrete stale service-account session saSess the blocking variant panics
while the suspending one returns the newly signed token. -/
theorem C8_blocking_async_diverge :
    (user.blocking_access_token c8Env sC8).fst = .panic
    ∧ (user.async_access_token c8Env sC8).fst
        = .ok ("n8", { sC8 with access_token_ := "n8" })
    ∧ (user.blocking_access_token c8Env sC8).fst
        ≠ (user.async_access_token c8Env sC8).fst
    ∧ (service_account.blocking_access_token c8SaEnv saSess).fst = .panic
    ∧ (service_account.async_access_token c8SaEnv saSess).fst
        = .ok ("s51", { saSess with jwt := saJwt51, access_token_ := "s51" })
    ∧ (service_account.blocking_access_token c8SaEnv saSess).fst
        ≠ (service_account.async_access_token c8SaEnv saSess).fst := by
  refine ⟨?_, ?_, ?_, ?_, ?_, ?_⟩ <;> decide

end FirestoreAuth
